import Mathlib

/-!
Shallow embedding of the trusted-traveler-scheduler core: the acceptance
predicate `Config.is_date_acceptable` (src/config.py), the sqlite-backed
dedup store operations `_is_new_appointment` and
`_clear_database_of_claimed_appointments`, and the polling cycle
`_get_schedule` with its driving loop `monitor_location`
(src/schedule_retriever.py).

Python `datetime` values are modelled as seconds since an arbitrary epoch
(`Nat`); chronological comparison of naive datetimes is `Nat` order, the
calendar date is the quotient by 86400 and the time of day the remainder.
The sqlite `appointments` table is a list of `(location_id, start_time)`
rows; `COUNT`, `INSERT` and `DELETE` are translated row by row.  The HTTP
fetch is an explicit input per cycle, and the cycle additionally records an
event trace (reconcile / claim / notify) so that ordering statements about
the cycle are expressible.
-/

namespace TTS

/-- A naive Python `datetime` at second granularity: seconds since an
arbitrary epoch.  Python compares naive datetimes chronologically, which is
`Nat` order here. -/
abbrev PyDateTime := Nat

/-- `datetime.date()` as an ordinal day; chronological order on calendar
dates is `Nat` order on the ordinal. -/
def dateOf (t : PyDateTime) : Nat := t / 86400

/-- `datetime.time()` as seconds since midnight. -/
def todOf (t : PyDateTime) : Nat := t % 86400

/-- The acceptance-relevant fields of `Config` (src/config.py).  `none`
mirrors Python `None`; `is_date_acceptable` guards every field with an
`is not None` test, kept here verbatim even though the constructor installs
non-`None` defaults. -/
structure Config where
  current_appointment_date : Option PyDateTime
  travel_time : Option Nat
  start_appointment_time : Option PyDateTime
  end_appointment_time : Option PyDateTime
deriving DecidableEq

/-- `datetime.strptime(s, "%B %d, %Y")` (src/config.py line 97), which is
how every configured `current_appointment_date` is produced, yields a
datetime at midnight of the parsed day: day ordinal `d` becomes
`86400 * d` seconds. -/
def parse_month_day_year (d : Nat) : PyDateTime := 86400 * d

/-- `Config.is_date_acceptable` (src/config.py lines 218 to 255).  The wall
clock `now` is passed explicitly: Python reads `datetime.now()` at call
time.  The four rejection tests appear in source order. -/
def is_date_acceptable (c : Config) (now w : PyDateTime) : Bool :=
  if c.current_appointment_date.any fun cad => decide (cad ≤ w) then false
  else if c.travel_time.any fun tt => decide (w < now + tt) then false
  else if c.start_appointment_time.any fun s => decide (todOf w < todOf s) then false
  else if c.end_appointment_time.any fun e => decide (todOf e < todOf w) then false
  else true

/-- One row of the sqlite `appointments` table: `(location_id, start_time)`. -/
abbrev Row := Nat × PyDateTime

/-- The sqlite `appointments` table. -/
abbrev Store := List Row

/-- `ScheduleRetriever._is_new_appointment` (src/schedule_retriever.py lines
43 to 79): `SELECT COUNT(*)` for the exact `(location_id, start_time)` pair;
if positive return `False`, otherwise `INSERT` the pair and return `True`.
The result pairs the returned boolean with the table after the call. -/
def is_new_appointment (st : Store) (loc : Nat) (t : PyDateTime) : Bool × Store :=
  if 0 < st.count (loc, t) then (false, st)
  else (true, st ++ [(loc, t)])

/-- `ScheduleRetriever._clear_database_of_claimed_appointments`
(src/schedule_retriever.py lines 81 to 104):
`DELETE FROM appointments WHERE location_id = ? AND start_time NOT IN (...)`.
sqlite evaluates `x NOT IN ()` as true, so an empty list deletes every row
of the location, as the caller on line 134 relies on. -/
def clear_database_of_claimed_appointments
    (st : Store) (loc : Nat) (active : List PyDateTime) : Store :=
  st.filter fun r => !(decide (r.1 = loc) && !(active.contains r.2))

/-- The `startTimestamp` field of one JSON entry, after the lens of
`datetime.strptime(timestamp, "%Y-%m-%dT%H:%M")` (line 39): the field may be
missing (`KeyError` on subscript), present but unparseable (`ValueError`
from `strptime`), or parse to a datetime. -/
inductive TsField
  | missing
  | malformed
  | parsed (t : PyDateTime)
deriving DecidableEq

/-- The `active` field of one JSON entry: missing (`KeyError`) or a
boolean. -/
inductive BoolField
  | missing
  | val (b : Bool)
deriving DecidableEq

/-- One element of the JSON array returned by the scheduler API. -/
structure Entry where
  active : BoolField
  startTimestamp : TsField
deriving DecidableEq

/-- The first loop of `_get_schedule` (lines 141 to 145): for each entry,
`appointment["active"]` (KeyError if missing), and when truthy
`_evaluate_timestamp` (lines 26 to 41), which parses `startTimestamp`
(KeyError / ValueError possible) and appends the parsed datetime to
`all_active_appointments` only when `is_date_acceptable` holds.  The
surrounding `try` catches only `OSError`, so a `KeyError` or `ValueError`
escapes; that is the `.error` outcome. -/
def evalTimestamps (c : Config) (now : PyDateTime) :
    List Entry → Except Unit (List PyDateTime)
  | [] => .ok []
  | e :: rest =>
    match e.active with
    | .missing => .error ()
    | .val false => evalTimestamps c now rest
    | .val true =>
      match e.startTimestamp with
      | .missing => .error ()
      | .malformed => .error ()
      | .parsed t =>
        match evalTimestamps c now rest with
        | .error u => .error u
        | .ok l => .ok (if is_date_acceptable c now t then t :: l else l)

/-- The `start_time` values of the entries that are active and parseable, in
feed order, before any acceptance filtering.  This is the set the
specification calls `activeCandidateTimes`. -/
def activeParsedTimes (body : List Entry) : List PyDateTime :=
  body.filterMap fun e =>
    match e.active, e.startTimestamp with
    | .val true, .parsed t => some t
    | _, _ => none

/-- The subset of `activeParsedTimes` accepted by `is_date_acceptable`: what
the code actually accumulates in `all_active_appointments`. -/
def acceptedActiveTimes (c : Config) (now : PyDateTime) (body : List Entry) :
    List PyDateTime :=
  (activeParsedTimes body).filter (is_date_acceptable c now)

/-- Observable store events of one cycle, in execution order. -/
inductive Event
  | reconcile (active : List PyDateTime)
  | claim (t : PyDateTime)
  | notify
deriving DecidableEq

/-- Whether an event is a reconcile (prune). -/
def Event.isReconcile : Event → Bool
  | .reconcile _ => true
  | .claim _ => false
  | .notify => false

/-- Whether an event is a tryClaim evaluation. -/
def Event.isClaim : Event → Bool
  | .reconcile _ => false
  | .claim _ => true
  | .notify => false

/-- The payloads of the reconcile events of a trace. -/
def reconcileArgsOf (evs : List Event) : List (List PyDateTime) :=
  evs.filterMap fun e =>
    match e with
    | .reconcile l => some l
    | .claim _ => none
    | .notify => none

/-- True when some reconcile event strictly precedes some claim event. -/
def reconcilePrecedesClaim : List Event → Bool
  | [] => false
  | .reconcile _ :: rest => rest.any Event.isClaim || reconcilePrecedesClaim rest
  | .claim _ :: rest => reconcilePrecedesClaim rest
  | .notify :: rest => reconcilePrecedesClaim rest

/-- True when some claim event strictly precedes some reconcile event. -/
def claimPrecedesReconcile : List Event → Bool
  | [] => false
  | .claim _ :: rest => rest.any Event.isReconcile || claimPrecedesReconcile rest
  | .reconcile _ :: rest => claimPrecedesReconcile rest
  | .notify :: rest => claimPrecedesReconcile rest

/-- The second loop of `_get_schedule` (lines 150 to 152): call
`_is_new_appointment` for each accepted time in order, collecting the times
that were new (the `schedule` dict flattened in feed order) and one claim
event per evaluation.  Returns (table, new times, events). -/
def claimAll (st : Store) (loc : Nat) :
    List PyDateTime → Store × List PyDateTime × List Event
  | [] => (st, [], [])
  | t :: rest =>
    let p := is_new_appointment st loc t
    let r := claimAll p.2 loc rest
    (r.1, (if p.1 then t :: r.2.1 else r.2.1), .claim t :: r.2.2)

/-- What one call of `_get_schedule` did, beyond its store effect. -/
inductive Outcome
  | done
  | transient
  | fatal (code : Nat)
  | uncaught
deriving DecidableEq

/-- Whether the per-location loop keeps running after this outcome:
`transient` is the early `return` on `OSError` (line 125), `done` the normal
fall-through; `fatal` is the raised `PermissionError` (line 128) and
`uncaught` an escaped `ValueError` / `KeyError`, both of which propagate out
of `monitor_location` and end the loop. -/
def Outcome.continues : Outcome → Bool
  | .done => true
  | .transient => true
  | .fatal _ => false
  | .uncaught => false

/-- Whether the outcome is the raised `PermissionError` of line 128, the
fatal client-error path. -/
def Outcome.isFatal : Outcome → Bool
  | .done => false
  | .transient => false
  | .fatal _ => true
  | .uncaught => false

/-- The result of one HTTP fetch: `failure` is an `OSError` raised by
`requests.get` (connection error or timeout), otherwise a status code and
the decoded JSON array. -/
inductive FetchResult
  | failure
  | success (status : Nat) (body : List Entry)
deriving DecidableEq

/-- The result of one cycle: the table afterwards, the new appointments (in
feed order; the notification on line 156 fires exactly when this list is
nonempty), the store event trace and the outcome. -/
structure CycleResult where
  store : Store
  newAppointments : List PyDateTime
  events : List Event
  outcome : Outcome
deriving DecidableEq

/-- `ScheduleRetriever._get_schedule` (src/schedule_retriever.py lines 106
to 163) for one fetch result: `OSError` on fetch returns untouched (line
125); a 4xx status raises `PermissionError` (lines 127 to 128); an empty
body reconciles with the empty list and returns (lines 132 to 136);
otherwise the active entries are evaluated (an escaped `KeyError` or
`ValueError` aborts everything before any store access), the table is
reconciled against `all_active_appointments`, each of those times is
claimed, and a notification fires when any claim was new. -/
def get_schedule (c : Config) (now : PyDateTime) (st : Store) (loc : Nat) :
    FetchResult → CycleResult
  | .failure => ⟨st, [], [], .transient⟩
  | .success status body =>
    if 400 ≤ status ∧ status < 500 then ⟨st, [], [], .fatal status⟩
    else if body.isEmpty then
      ⟨clear_database_of_claimed_appointments st loc [], [], [.reconcile []], .done⟩
    else
      match evalTimestamps c now body with
      | .error _ => ⟨st, [], [], .uncaught⟩
      | .ok actives =>
        let st1 := clear_database_of_claimed_appointments st loc actives
        let r := claimAll st1 loc actives
        ⟨r.1, r.2.1,
          .reconcile actives :: r.2.2 ++ (if r.2.1.isEmpty then [] else [.notify]),
          .done⟩

/-- The observable outcome of `monitor_location`: final table, number of
cycles run, and whether the loop ended by a raised error. -/
structure MonitorResult where
  store : Store
  cycles : Nat
  aborted : Bool
deriving DecidableEq

/-- The `while True` loop of `monitor_location` (lines 181 to 192), observed
for `fuel` iterations: each iteration runs `_get_schedule` with that cycle's
wall clock and fetch result; a raised error ends the loop, otherwise it
continues.  `fuel` only bounds how much of the infinite loop is observed. -/
def monitorLoop (c : Config) (loc : Nat) :
    (Nat → PyDateTime) → (Nat → FetchResult) → Store → Nat → MonitorResult
  | _, _, st, 0 => ⟨st, 0, false⟩
  | nows, fetches, st, fuel + 1 =>
    let r := get_schedule c (nows 0) st loc (fetches 0)
    if r.outcome.continues then
      let m := monitorLoop c loc (fun i => nows (i + 1)) (fun i => fetches (i + 1)) r.store fuel
      ⟨m.store, m.cycles + 1, m.aborted⟩
    else ⟨r.store, 1, true⟩

/-- `ScheduleRetriever.monitor_location` (src/schedule_retriever.py lines
165 to 192): when `retrieval_interval` is zero, run `_get_schedule` once and
return (lines 177 to 179); otherwise enter the loop. -/
def monitor_location (c : Config) (loc : Nat) (nows : Nat → PyDateTime)
    (fetches : Nat → FetchResult) (st : Store) (interval fuel : Nat) :
    MonitorResult :=
  if interval = 0 then
    let r := get_schedule c (nows 0) st loc (fetches 0)
    ⟨r.store, 1, !r.outcome.continues⟩
  else
    monitorLoop c loc nows fetches st fuel

/-! ### Helper lemmas -/

/-- When the first pass over the feed completes without an escaped
exception, the accumulated list is exactly the accepted subset of the
active, parseable times, in feed order. -/
theorem evalTimestamps_eq_accepted (c : Config) (now : PyDateTime) :
    ∀ (body : List Entry) (l : List PyDateTime),
      evalTimestamps c now body = .ok l → l = acceptedActiveTimes c now body := by
  intro body
  induction body with
  | nil =>
    intro l h
    simp only [evalTimestamps] at h
    cases h
    rfl
  | cons e rest ih =>
    intro l h
    obtain ⟨ea, ets⟩ := e
    cases ea with
    | missing => simp [evalTimestamps] at h
    | val b =>
      cases b with
      | false =>
        simp only [evalTimestamps] at h
        have hrest := ih l h
        simp [acceptedActiveTimes, activeParsedTimes, List.filterMap_cons] at hrest ⊢
        exact hrest
      | true =>
        cases ets with
        | missing => simp [evalTimestamps] at h
        | malformed => simp [evalTimestamps] at h
        | parsed t =>
          simp only [evalTimestamps] at h
          cases hr : evalTimestamps c now rest with
          | error u => rw [hr] at h; cases h
          | ok l' =>
            rw [hr] at h
            cases h
            have hrest := ih l' hr
            simp [acceptedActiveTimes, activeParsedTimes, List.filterMap_cons,
              List.filter_cons] at hrest ⊢
            by_cases hacc : is_date_acceptable c now t = true <;>
              simp [hacc, hrest]

/-- The second loop emits exactly one claim event per accepted time, in
order. -/
theorem claimAll_events (loc : Nat) :
    ∀ (l : List PyDateTime) (st : Store),
      (claimAll st loc l).2.2 = l.map Event.claim := by
  intro l
  induction l with
  | nil => intro st; rfl
  | cons t rest ih =>
    intro st
    simp only [claimAll, List.map_cons]
    rw [ih]

/-- The second loop never touches a row of another location: counts of such
rows are preserved. -/
theorem claimAll_count_ne (loc : Nat) (r : Row) (hr : r.1 ≠ loc) :
    ∀ (l : List PyDateTime) (st : Store),
      ((claimAll st loc l).1).count r = st.count r := by
  intro l
  induction l with
  | nil => intro st; rfl
  | cons t rest ih =>
    intro st
    simp only [claimAll]
    rw [ih]
    unfold is_new_appointment
    split
    · rfl
    · have hne : ((loc, t) : Row) ≠ r := by
        intro hEq
        exact hr (by rw [← hEq])
      simp [List.count_append, List.count_cons, hne]

/-- The reconcile (`DELETE`) never touches a row of another location. -/
theorem clear_count_ne (loc : Nat) (r : Row) (hr : r.1 ≠ loc)
    (st : Store) (active : List PyDateTime) :
    (clear_database_of_claimed_appointments st loc active).count r = st.count r := by
  unfold clear_database_of_claimed_appointments
  apply List.count_filter
  simp [hr]

/-- Membership in the reconciled table, unconditionally: a row survives the
`DELETE` exactly when it was present and is not a row of this location with
a start time outside the active list. -/
theorem clear_mem_iff (st : Store) (loc : Nat) (active : List PyDateTime) (r : Row) :
    r ∈ clear_database_of_claimed_appointments st loc active ↔
      r ∈ st ∧ (r.1 = loc → r.2 ∈ active) := by
  unfold clear_database_of_claimed_appointments
  rw [List.mem_filter]
  constructor
  · rintro ⟨hm, hp⟩
    refine ⟨hm, fun hl => ?_⟩
    by_contra hna
    simp [hl, hna] at hp
  · rintro ⟨hm, hp⟩
    refine ⟨hm, ?_⟩
    by_cases hl : r.1 = loc
    · simp [hl, hp hl]
    · simp [hl]

/-- A configuration with no constraint set: every candidate is accepted. -/
def acceptAllConfig : Config := ⟨none, none, none, none⟩

/-- A configuration whose time-of-day window ends 3600 seconds past
midnight, with the default 900 second travel time: a candidate later in the
day is active but policy-rejected. -/
def narrowWindowConfig : Config := ⟨none, some 900, none, some 3600⟩

/-! ### Claim theorems -/

/-- Claim C4: reconcile removes a stored row of the location exactly when
its start time is absent from the supplied active list; rows of the location
with their start time in the list survive, and with the empty list every row
of the location is removed. -/
theorem C4_reconcile_removes_iff_absent
    (st : Store) (loc : Nat) (active : List PyDateTime) (r : Row) :
    (r ∈ clear_database_of_claimed_appointments st loc active ↔
      r ∈ st ∧ (r.1 = loc → r.2 ∈ active))
    ∧ (r.1 = loc → r ∉ clear_database_of_claimed_appointments st loc []) := by
  refine ⟨clear_mem_iff st loc active r, fun hl hmem => ?_⟩
  have h := (clear_mem_iff st loc [] r).1 hmem
  simp [hl] at h

/-- Witness for C4: the reconcile of location 1 against the empty active
list removes the stored row `(1, 7)`. -/
theorem C4_reconcile_removes_iff_absent_witness :
    ((1, 7) : Row) ∉ clear_database_of_claimed_appointments [(1, 5), (1, 7), (2, 5)] 1 [] :=
  (C4_reconcile_removes_iff_absent [(1, 5), (1, 7), (2, 5)] 1 [] (1, 7)).2 rfl

/-- Claim C5: tryClaim on an absent pair inserts the pair and returns true;
on a present pair it returns false and leaves the table unchanged; and a
second call on the table left by the first always returns false. -/
theorem C5_tryClaim_exactly_once (st : Store) (loc : Nat) (t : PyDateTime) :
    (((loc, t) : Row) ∉ st → is_new_appointment st loc t = (true, st ++ [(loc, t)]))
    ∧ (((loc, t) : Row) ∈ st → is_new_appointment st loc t = (false, st))
    ∧ (is_new_appointment (is_new_appointment st loc t).2 loc t).1 = false := by
  refine ⟨fun h => ?_, fun h => ?_, ?_⟩
  · unfold is_new_appointment
    rw [if_neg (by simp [List.count_eq_zero.2 h])]
  · unfold is_new_appointment
    rw [if_pos (List.count_pos_iff.2 h)]
  · unfold is_new_appointment
    by_cases h : 0 < List.count ((loc, t) : Row) st
    · simp [h]
    · simp [h, List.count_append]

/-- Witness for C5: claiming `(1, 5)` on an empty table inserts and returns
true; claiming it again returns false and leaves the table unchanged. -/
theorem C5_tryClaim_exactly_once_witness :
    is_new_appointment [] 1 5 = (true, [(1, 5)])
    ∧ is_new_appointment [(1, 5)] 1 5 = (false, [(1, 5)]) :=
  ⟨(C5_tryClaim_exactly_once [] 1 5).1 (by decide),
   (C5_tryClaim_exactly_once [(1, 5)] 1 5).2.1 (by decide)⟩

/-- Claim C8: when `current_appointment_date` is set (always a midnight
datetime, since it is parsed with the format `Month Day, Year`), every
candidate whose calendar date is on or after the cutoff's calendar date is
rejected, whatever its time of day. -/
theorem C8_cutoff_date_rejects (c : Config) (d : Nat) (now w : PyDateTime)
    (hc : c.current_appointment_date = some (parse_month_day_year d))
    (hd : d ≤ dateOf w) :
    is_date_acceptable c now w = false := by
  unfold dateOf at hd
  unfold is_date_acceptable
  rw [hc]
  simp only [Option.any_some, parse_month_day_year, decide_eq_true_eq]
  have hcond : 86400 * d ≤ w := by omega
  rw [if_pos hcond]

/-- Witness for C8: with the cutoff at day 1 (midnight), the candidate one
second past that midnight is rejected. -/
theorem C8_cutoff_date_rejects_witness :
    is_date_acceptable ⟨some (parse_month_day_year 1), none, none, none⟩ 0 86401 = false :=
  C8_cutoff_date_rejects ⟨some (parse_month_day_year 1), none, none, none⟩ 1 0 86401 rfl
    (by decide)

/-- Claim C9: with a zero retrieval interval, `monitor_location` performs
exactly one cycle and returns; its result does not depend on how much of
the indefinite loop could have been observed. -/
theorem C9_zero_interval_single_cycle (c : Config) (loc : Nat)
    (nows : Nat → PyDateTime) (fetches : Nat → FetchResult) (st : Store) (fuel : Nat) :
    (monitor_location c loc nows fetches st 0 fuel).cycles = 1
    ∧ monitor_location c loc nows fetches st 0 fuel
        = monitor_location c loc nows fetches st 0 0 :=
  ⟨rfl, rfl⟩

/-- Claim C10: a cycle for location `loc` never touches a row of another
location: the insert of tryClaim, the delete of reconcile, and the whole
cycle all preserve the multiplicity of every row keyed by a different
location. -/
theorem C10_other_locations_untouched (c : Config) (now : PyDateTime) (st : Store)
    (loc : Nat) (t : PyDateTime) (active : List PyDateTime) (fetch : FetchResult)
    (r : Row) (hr : r.1 ≠ loc) :
    ((is_new_appointment st loc t).2.count r = st.count r)
    ∧ ((clear_database_of_claimed_appointments st loc active).count r = st.count r)
    ∧ ((get_schedule c now st loc fetch).store.count r = st.count r) := by
  refine ⟨?_, clear_count_ne loc r hr st active, ?_⟩
  · unfold is_new_appointment
    split
    · rfl
    · have hne : ((loc, t) : Row) ≠ r := fun hEq => hr (by rw [← hEq])
      simp [List.count_append, List.count_cons, hne]
  · cases fetch with
    | failure => rfl
    | success status body =>
      simp only [get_schedule]
      split
      · rfl
      · split
        · exact clear_count_ne loc r hr st []
        · cases hev : evalTimestamps c now body with
          | error u => simp [hev]
          | ok actives =>
            simp only [hev]
            rw [claimAll_count_ne loc r hr, clear_count_ne loc r hr]

/-- Witness for C10: a cycle for location 1 that claims a new slot leaves
the multiplicity of the row `(2, 9)` unchanged. -/
theorem C10_other_locations_untouched_witness :
    (get_schedule acceptAllConfig 0 [(2, 9)] 1
        (.success 200 [⟨.val true, .parsed 5⟩])).store.count ((2, 9) : Row)
      = List.count ((2, 9) : Row) [((2, 9) : Row)] :=
  (C10_other_locations_untouched acceptAllConfig 0 [(2, 9)] 1 5 []
    (.success 200 [⟨.val true, .parsed 5⟩]) (2, 9) (by decide)).2.2

/-- A reconcile event at the head of a trace heads the payload list. -/
theorem reconcileArgsOf_cons_reconcile (l : List PyDateTime) (evs : List Event) :
    reconcileArgsOf (.reconcile l :: evs) = l :: reconcileArgsOf evs := rfl

/-- Claim events contribute nothing to the reconcile payloads of a trace. -/
theorem reconcileArgsOf_claims_append (l : List PyDateTime) (evs : List Event) :
    reconcileArgsOf (l.map Event.claim ++ evs) = reconcileArgsOf evs := by
  simp [reconcileArgsOf]

/-- A trace with no reconcile event has no claim-before-reconcile pair. -/
theorem cpr_of_no_reconcile :
    ∀ (evs : List Event), (∀ e ∈ evs, e.isReconcile = false) →
      claimPrecedesReconcile evs = false := by
  intro evs
  induction evs with
  | nil => intro _; rfl
  | cons e rest ih =>
    intro h
    have hrest : ∀ x ∈ rest, x.isReconcile = false :=
      fun x hx => h x (List.mem_cons_of_mem _ hx)
    cases e with
    | reconcile l =>
      have := h _ (List.mem_cons_self _ _)
      simp [Event.isReconcile] at this
    | claim t =>
      simp only [claimPrecedesReconcile, Bool.or_eq_false_iff]
      refine ⟨List.any_eq_false.2 fun x hx => by simp [hrest x hx], ih hrest⟩
    | notify =>
      simp only [claimPrecedesReconcile]
      exact ih hrest

/-- Claim C1 fails on the code: with the narrow-window configuration, the
single candidate of the feed is active and parseable, the policy rejects it
(its time of day 13600 is past the window end 3600), and the list handed to
the reconcile delete is `[]`, not `[100000]` — an active-but-rejected slot
is missing from the reconciliation set. -/
theorem C1_rejected_active_excluded_cex :
    (100000 : PyDateTime) ∈ activeParsedTimes [⟨.val true, .parsed 100000⟩]
    ∧ is_date_acceptable narrowWindowConfig 0 100000 = false
    ∧ reconcileArgsOf (get_schedule narrowWindowConfig 0 [] 1
        (.success 200 [⟨.val true, .parsed 100000⟩])).events = [[]] := by
  decide

/-- Claim C1 amended: the list passed to every reconcile of a cycle is the
policy-accepted subset of the active candidates' start times — what the
code accumulates in `all_active_appointments` — not the full active set. -/
theorem C1_reconcile_gets_accepted_subset (c : Config) (now : PyDateTime)
    (st : Store) (loc status : Nat) (body : List Entry) (l : List PyDateTime)
    (h : l ∈ reconcileArgsOf (get_schedule c now st loc (.success status body)).events) :
    l = acceptedActiveTimes c now body := by
  simp only [get_schedule] at h
  split at h
  · simp [reconcileArgsOf] at h
  · split at h
    · rename_i hemp
      simp only [reconcileArgsOf, List.filterMap_cons, List.filterMap_nil,
        List.mem_singleton] at h
      subst h
      rw [List.isEmpty_iff] at hemp
      subst hemp
      rfl
    · cases hev : evalTimestamps c now body with
      | error u => rw [hev] at h; simp [reconcileArgsOf] at h
      | ok actives =>
        simp only [hev] at h
        have hacc := evalTimestamps_eq_accepted c now body actives hev
        rw [claimAll_events] at h
        simp only [List.cons_append, reconcileArgsOf_cons_reconcile,
          reconcileArgsOf_claims_append] at h
        rw [← hacc]
        split at h <;> simpa [reconcileArgsOf] using h

/-- Witness for the amended C1: a cycle whose one candidate is accepted
reconciles against exactly that accepted list. -/
theorem C1_reconcile_gets_accepted_subset_witness :
    ([100000] : List PyDateTime)
      = acceptedActiveTimes acceptAllConfig 0 [⟨.val true, .parsed 100000⟩] :=
  C1_reconcile_gets_accepted_subset acceptAllConfig 0 [] 1 200
    [⟨.val true, .parsed 100000⟩] [100000] (by decide)

/-- Claim C2 fails on the code: in a cycle with one accepted candidate, the
reconcile event strictly precedes a claim event — the code prunes first
(line 148) and evaluates claims afterwards (lines 150 to 152). -/
theorem C2_claim_after_reconcile_cex :
    reconcilePrecedesClaim (get_schedule acceptAllConfig 0 [] 1
      (.success 200 [⟨.val true, .parsed 100000⟩])).events = true := by
  decide

/-- Claim C2 amended: within one cycle no tryClaim evaluation ever precedes
the reconcile — reconciliation always runs first, and every claim of the
cycle is evaluated after it. -/
theorem C2_no_claim_before_reconcile (c : Config) (now : PyDateTime) (st : Store)
    (loc : Nat) (fetch : FetchResult) :
    claimPrecedesReconcile (get_schedule c now st loc fetch).events = false := by
  cases fetch with
  | failure => rfl
  | success status body =>
    simp only [get_schedule]
    split
    · rfl
    · split
      · rfl
      · cases hev : evalTimestamps c now body with
        | error u => simp [hev, claimPrecedesReconcile]
        | ok actives =>
          simp only [hev]
          rw [claimAll_events]
          simp only [List.cons_append, claimPrecedesReconcile]
          apply cpr_of_no_reconcile
          intro e he
          rcases List.mem_append.1 he with hm | hi
          · obtain ⟨t, _, ht⟩ := List.mem_map.1 hm
            rw [← ht]
            rfl
          · split at hi
            · simp at hi
            · rw [List.mem_singleton.1 hi]
              rfl

/-- Claim C3 fails on the code: a feed whose second entry has an
unparseable timestamp aborts the whole cycle with an uncaught error — the
acceptable third entry is never evaluated or claimed, no reconcile happens,
and the store is left untouched. -/
theorem C3_malformed_aborts_cex :
    is_date_acceptable acceptAllConfig 0 200000 = true
    ∧ get_schedule acceptAllConfig 0 [] 1 (.success 200
        [⟨.val true, .parsed 100000⟩, ⟨.val true, .malformed⟩,
         ⟨.val true, .parsed 200000⟩])
      = ⟨[], [], [], .uncaught⟩ := by
  decide

/-- Claim C3 amended: whenever evaluating the feed raises (an unparseable
`startTimestamp` or a missing field of an entry reached by the loop), the
cycle ends with the store untouched, no claim, no reconcile and no
notification, and the error escapes as an uncaught exception. -/
theorem C3_malformed_aborts_cycle (c : Config) (now : PyDateTime) (st : Store)
    (loc status : Nat) (body : List Entry)
    (hstatus : ¬(400 ≤ status ∧ status < 500))
    (herr : evalTimestamps c now body = .error ()) :
    get_schedule c now st loc (.success status body) = ⟨st, [], [], .uncaught⟩ := by
  have hne : ¬(body.isEmpty = true) := by
    cases body with
    | nil => simp [evalTimestamps] at herr
    | cons e rest => simp
  simp only [get_schedule]
  rw [if_neg hstatus, if_neg hne, herr]

/-- Witness for the amended C3: a one-entry feed with an unparseable
timestamp leaves the table `[(1, 5)]` untouched and ends uncaught. -/
theorem C3_malformed_aborts_cycle_witness :
    get_schedule acceptAllConfig 0 [(1, 5)] 1
        (.success 200 [⟨.val true, .malformed⟩])
      = ⟨[(1, 5)], [], [], .uncaught⟩ :=
  C3_malformed_aborts_cycle acceptAllConfig 0 [(1, 5)] 1 200
    [⟨.val true, .malformed⟩] (by decide) rfl

/-- Claim C6: a transport-level fetch failure ends the cycle with the store
exactly as before, no new appointments (hence no notification) and no store
event; and the polling loop counts the cycle and carries on with the next
one instead of aborting. -/
theorem C6_transport_failure_no_mutation (c : Config) (loc : Nat)
    (nows : Nat → PyDateTime) (fetches : Nat → FetchResult) (st : Store)
    (fuel : Nat) (h : fetches 0 = .failure) :
    get_schedule c (nows 0) st loc (fetches 0) = ⟨st, [], [], .transient⟩
    ∧ monitorLoop c loc nows fetches st (fuel + 1)
        = ⟨(monitorLoop c loc (fun i => nows (i + 1)) (fun i => fetches (i + 1)) st fuel).store,
           (monitorLoop c loc (fun i => nows (i + 1)) (fun i => fetches (i + 1)) st fuel).cycles + 1,
           (monitorLoop c loc (fun i => nows (i + 1)) (fun i => fetches (i + 1)) st fuel).aborted⟩ := by
  constructor
  · rw [h]
    rfl
  · simp only [monitorLoop, h]
    rfl


/-- Witness for C6: a loop whose every fetch fails, observed for one
iteration starting from table `[(1, 5)]`, runs that one cycle, keeps the
table, and is not aborted. -/
theorem C6_transport_failure_no_mutation_witness :
    get_schedule acceptAllConfig 0 [(1, 5)] 1 FetchResult.failure
        = ⟨[(1, 5)], [], [], .transient⟩
    ∧ monitorLoop acceptAllConfig 1 (fun _ => 0) (fun _ => FetchResult.failure) [(1, 5)] 1
        = ⟨(monitorLoop acceptAllConfig 1 (fun _ => 0)
              (fun _ => FetchResult.failure) [(1, 5)] 0).store,
           (monitorLoop acceptAllConfig 1 (fun _ => 0)
              (fun _ => FetchResult.failure) [(1, 5)] 0).cycles + 1,
           (monitorLoop acceptAllConfig 1 (fun _ => 0)
              (fun _ => FetchResult.failure) [(1, 5)] 0).aborted⟩ :=
  C6_transport_failure_no_mutation acceptAllConfig 1 (fun _ => 0)
    (fun _ => FetchResult.failure) [(1, 5)] 0 rfl

/-- Claim C7: a fetched response makes the cycle raise the fatal
`PermissionError` exactly when its status code lies in 400 to 499; and in
that case the error is raised before any store access: the table, the new
appointments and the event trace are all untouched. -/
theorem C7_fatal_iff_client_error (c : Config) (now : PyDateTime) (st : Store)
    (loc status : Nat) (body : List Entry) :
    ((get_schedule c now st loc (.success status body)).outcome.isFatal = true
      ↔ 400 ≤ status ∧ status < 500)
    ∧ (400 ≤ status → status < 500 →
        get_schedule c now st loc (.success status body) = ⟨st, [], [], .fatal status⟩) := by
  constructor
  · simp only [get_schedule]
    by_cases h : 400 ≤ status ∧ status < 500
    · rw [if_pos h]
      simp [Outcome.isFatal, h]
    · rw [if_neg h]
      simp only [h, iff_false]
      split
      · simp [Outcome.isFatal]
      · cases hev : evalTimestamps c now body with
        | error u => simp [hev, Outcome.isFatal]
        | ok actives => simp [hev, Outcome.isFatal]
  · intro h1 h2
    simp only [get_schedule]
    rw [if_pos ⟨h1, h2⟩]

/-- Witness for C7: a 403 response on the table `[(1, 5)]` yields the fatal
outcome with the table, new appointments and events untouched. -/
theorem C7_fatal_iff_client_error_witness :
    get_schedule acceptAllConfig 0 [(1, 5)] 1 (.success 403 [])
      = ⟨[(1, 5)], [], [], .fatal 403⟩ :=
  (C7_fatal_iff_client_error acceptAllConfig 0 [(1, 5)] 1 403 []).2
    (by decide) (by decide)

end TTS
